import Mathlib

/-!
Verification development for the processing module interface declared in
`src/rss/include/acc_processing.h` (Acconeer A121 SDK).  The repository ships
only the header: the implementations live in a prebuilt vendor library, so the
operational definitions below are modelled from the specification, while the
declared field widths and signatures come from the header itself.
-/

set_option maxHeartbeats 1000000

/-- Profile enumeration (`acc_config_profile_t`).  Modelled from the spec:
the header includes `acc_definitions_a121.h`, which is not in src; the spec
describes a fixed enumerated set of profiles numbered 1..5. -/
inductive acc_config_profile_t
  | profile_1
  | profile_2
  | profile_3
  | profile_4
  | profile_5
deriving DecidableEq

/-- Inter-sweep idle state (`acc_config_idle_state_t`).  Modelled from the
spec: the configuration header is not in src; the spec names a ready state
among the idle states. -/
inductive acc_config_idle_state_t
  | deep_sleep
  | sleep
  | ready
deriving DecidableEq

/-- Per-subsweep configuration (`acc_config_subsweep.h` is not in src).
Modelled from the spec: the layout uses each subsweep's sample-count
parameter. -/
structure acc_config_subsweep_t where
  num_points : ℕ
deriving DecidableEq

/-- Configuration (`acc_config_t`).  Modelled from the spec: the
configuration object is an external collaborator whose header is not in src;
the spec lists the fields the processing core reads: profile, subsweeps
(bounded by a fixed maximum), sweep count, continuous-sweep-mode flag and
inter-sweep idle state. -/
structure acc_config_t where
  subsweeps : List acc_config_subsweep_t
  sweep_count : ℕ
  continuous_sweep_mode : Bool
  inter_sweep_idle_state : acc_config_idle_state_t
  profile : acc_config_profile_t
deriving DecidableEq

/-- Fixed maximum subsweep count `ACC_MAX_NUM_SUBSWEEPS`.  Modelled from the
spec: the defining header `acc_definitions_a121.h` is not in src; the value is
the SDK's compile-time maximum. -/
def ACC_MAX_NUM_SUBSWEEPS : ℕ := 4

/-- Metadata populated during creation (`acc_processing_metadata_t`,
header lines 36-65).  The length and offset fields are declared `uint16_t`
in the header; here they are carried as natural numbers, with the 16-bit
storage captured separately by `storedMetadata`.  The `max_sweep_rate`
field is omitted: its profile-specific timing constants are vendor data
absent from both src and the spec, and no claim concerns it. -/
structure acc_processing_metadata_t where
  frame_data_length : ℕ
  sweep_data_length : ℕ
  subsweep_data_offset : List ℕ
  subsweep_data_length : List ℕ
  high_speed_mode : Bool
deriving DecidableEq

/-- The subsweep data lengths derived from a configuration: one entry per
subsweep, each the subsweep's sample-count parameter. -/
def subsweepLengths (cfg : acc_config_t) : List ℕ :=
  cfg.subsweeps.map (fun s => s.num_points)

/-- Cumulative offsets starting from accumulator `a`: each subsweep's offset
is the running sum of the lengths before it. -/
def offsetsFrom (a : ℕ) : List ℕ → List ℕ
  | [] => []
  | l :: ls => a :: offsetsFrom (a + l) ls

/-- Modelled from the spec: `subsweep_data_offset[i]` is the cumulative sum of
preceding lengths within a sweep, with offset[0] = 0. -/
def subsweepOffsets (ls : List ℕ) : List ℕ :=
  offsetsFrom 0 ls

/-- Modelled from the spec: high speed mode requires continuous sweep mode
off, inter-sweep idle state READY, exactly one subsweep and profile 3-5
(header lines 57-62 list the same four limitations). -/
def highSpeedProfile : acc_config_profile_t → Bool
  | .profile_3 => true
  | .profile_4 => true
  | .profile_5 => true
  | _ => false

/-- Conjunction of the four high-speed-mode conditions. -/
def highSpeedMode (cfg : acc_config_t) : Bool :=
  !cfg.continuous_sweep_mode
    && (cfg.inter_sweep_idle_state == .ready)
    && (cfg.subsweeps.length == 1)
    && highSpeedProfile cfg.profile

/-- Structural validity checked by the planner.  Modelled from the spec: the
planner fails when the configuration is structurally inconsistent — subsweep
count outside 1..ACC_MAX_NUM_SUBSWEEPS, or a subsweep requesting zero
samples; semantic validation is the configuration collaborator's job. -/
def validStructure (cfg : acc_config_t) : Bool :=
  decide (1 ≤ cfg.subsweeps.length)
    && decide (cfg.subsweeps.length ≤ ACC_MAX_NUM_SUBSWEEPS)
    && !(cfg.subsweeps.any (fun s => s.num_points == 0))

/-- The Layout Planner.  Modelled from the spec (the implementation behind
`acc_processing_create` is not in src): `sweep_data_length` is the sum of all
subsweep lengths, `frame_data_length` is `sweep_data_length` times the number
of sweeps per frame, offsets are cumulative sums, and on a structurally
inconsistent configuration no metadata is produced. -/
def plan (cfg : acc_config_t) : Option acc_processing_metadata_t :=
  if validStructure cfg then
    some
      { frame_data_length := (subsweepLengths cfg).sum * cfg.sweep_count
        sweep_data_length := (subsweepLengths cfg).sum
        subsweep_data_offset := subsweepOffsets (subsweepLengths cfg)
        subsweep_data_length := subsweepLengths cfg
        high_speed_mode := highSpeedMode cfg }
  else
    none

/-- The metadata as actually stored in the header's `uint16_t` fields
(header lines 39-45): every length and offset is reduced modulo 2^16. -/
structure storedMetadata16 where
  frame_data_length : ℕ
  sweep_data_length : ℕ
  subsweep_data_offset : List ℕ
  subsweep_data_length : List ℕ
deriving DecidableEq

/-- Reduction of planned metadata to its 16-bit stored form, from the
`uint16_t` field declarations in the header. -/
def storedMetadata (md : acc_processing_metadata_t) : storedMetadata16 :=
  { frame_data_length := md.frame_data_length % 2 ^ 16
    sweep_data_length := md.sweep_data_length % 2 ^ 16
    subsweep_data_offset := md.subsweep_data_offset.map (fun x => x % 2 ^ 16)
    subsweep_data_length := md.subsweep_data_length.map (fun x => x % 2 ^ 16) }

/-- Processing instance (`acc_processing_t`, an opaque handle).  Modelled
from the spec: the instance owns the computed metadata; further cached
extraction constants are derived from it and add nothing observable. -/
structure acc_processing_t where
  metadata : acc_processing_metadata_t
deriving DecidableEq

/-- `acc_processing_create` (header line 102).  Modelled from the spec: the
implementation is not in src.  Returns the handle (NULL modelled as `none`),
the metadata delivered through the out-parameter (`none` when the failure
path leaves it unwritten), and the allocation environment after the call.
On planning failure no instance is produced and the environment is
unchanged. -/
def acc_processing_create (cfg : acc_config_t) (world : List acc_processing_t) :
    Option acc_processing_t × Option acc_processing_metadata_t × List acc_processing_t :=
  match plan cfg with
  | none => (none, none, world)
  | some md => (some ⟨md⟩, some md, ⟨md⟩ :: world)

/-- `acc_processing_destroy` (header line 123).  Modelled from the spec: the
implementation is not in src.  The handle may be NULL (`none`), in which
case the call is a no-op; otherwise the instance's resources are released
from the allocation environment. -/
def acc_processing_destroy (handle : Option acc_processing_t)
    (world : List acc_processing_t) : List acc_processing_t :=
  match handle with
  | none => world
  | some inst => world.erase inst

/-- `acc_processing_points_to_meter` (header lines 126-135).  Modelled from
the spec: the implementation is not in src.  A pure conversion by a fixed
step-size constant (meters per point); the constant's value is sensor
calibration data absent from src, so it is a parameter here.  Floats are
modelled as exact rationals. -/
def acc_processing_points_to_meter (step_length_m : ℚ) (points : ℤ) : ℚ :=
  (points : ℚ) * step_length_m

/-- `acc_processing_meter_to_points` (header lines 138-147).  Modelled from
the spec: the implementation is not in src.  Rounds to the nearest point
count (round half up, one fixed rule applied consistently as the spec
requires). -/
def acc_processing_meter_to_points (step_length_m : ℚ) (length : ℚ) : ℤ :=
  round (length / step_length_m)

/-- The compensation model's lookup table.  Modelled from the spec: the exact
per-profile decay constants are hardware characterization data present
neither in src nor in the spec, so the table is a parameter; a profile not
covered by the table maps to `none`. -/
structure compensation_model_t where
  model_parameter_signal : acc_config_profile_t → Option ℚ
  model_parameter_deviation : acc_config_profile_t → Option ℚ

/-- Core of `acc_processing_get_temperature_adjustment_factors` (header
lines 194-195).  Modelled from the spec: the implementation is not in src.
Computes the base-2 exponents of the two factors,
`-(current - reference) / model_parameter`, for the signal and deviation
model parameters of the profile; fails (`none`) when the profile has no
defined model constant.  The floating-point factors themselves are
`2 ^ exponent`, captured by `IsTemperatureAdjustmentFactors`. -/
def acc_processing_get_temperature_adjustment_exponents
    (m : compensation_model_t) (reference_temperature current_temperature : ℤ)
    (profile : acc_config_profile_t) : Option (ℚ × ℚ) :=
  match m.model_parameter_signal profile, m.model_parameter_deviation profile with
  | some s, some d =>
      some (-((current_temperature - reference_temperature : ℤ) : ℚ) / s,
            -((current_temperature - reference_temperature : ℤ) : ℚ) / d)
  | _, _ => none

/-- The real-valued contract of
`acc_processing_get_temperature_adjustment_factors`: the call succeeds and
writes `signal_adjust_factor = 2 ^ (-delta / model_parameter_signal)` and
`deviation_adjust_factor = 2 ^ (-delta / model_parameter_deviation)`. -/
def IsTemperatureAdjustmentFactors (m : compensation_model_t)
    (reference_temperature current_temperature : ℤ) (profile : acc_config_profile_t)
    (signal_adjust_factor deviation_adjust_factor : ℝ) : Prop :=
  ∃ es ed : ℚ,
    acc_processing_get_temperature_adjustment_exponents m
        reference_temperature current_temperature profile = some (es, ed) ∧
    signal_adjust_factor = (2 : ℝ) ^ (es : ℝ) ∧
    deviation_adjust_factor = (2 : ℝ) ^ (ed : ℝ)

/-- The spec's end-to-end example configuration: two subsweeps of lengths 4
and 6, three sweeps per frame. -/
def cfgEx : acc_config_t :=
  { subsweeps := [⟨4⟩, ⟨6⟩]
    sweep_count := 3
    continuous_sweep_mode := false
    inter_sweep_idle_state := .ready
    profile := .profile_3 }

/-- The metadata the spec's example expects for `cfgEx`. -/
def mdEx : acc_processing_metadata_t :=
  { frame_data_length := 30
    sweep_data_length := 10
    subsweep_data_offset := [0, 4]
    subsweep_data_length := [4, 6]
    high_speed_mode := false }

/-- A structurally inconsistent configuration (no subsweeps), rejected by the
planner. -/
def cfgBad : acc_config_t :=
  { subsweeps := []
    sweep_count := 1
    continuous_sweep_mode := false
    inter_sweep_idle_state := .ready
    profile := .profile_1 }

/-- A compensation model covering no profile at all. -/
def mEmpty : compensation_model_t :=
  { model_parameter_signal := fun _ => none
    model_parameter_deviation := fun _ => none }

/-- A compensation model with signal decay constant 60 and deviation decay
constant 30 for every profile (sample constants for witnesses only). -/
def mSixty : compensation_model_t :=
  { model_parameter_signal := fun _ => some 60
    model_parameter_deviation := fun _ => some 30 }

theorem offsetsFrom_length (ls : List ℕ) (a : ℕ) :
    (offsetsFrom a ls).length = ls.length := by
  induction ls generalizing a with
  | nil => rfl
  | cons l ls ih => simp [offsetsFrom, ih]

theorem offsetsFrom_getElem? (ls : List ℕ) (a i : ℕ) (h : i < ls.length) :
    (offsetsFrom a ls)[i]? = some (a + (ls.take i).sum) := by
  induction ls generalizing a i with
  | nil => simp at h
  | cons l ls ih =>
    cases i with
    | zero => simp [offsetsFrom]
    | succ i =>
      have hi : i < ls.length := by simpa using h
      have hrec := ih (a + l) i hi
      simp [offsetsFrom, hrec]
      omega

theorem plan_eq_some (cfg : acc_config_t) (md : acc_processing_metadata_t)
    (h : plan cfg = some md) :
    md.frame_data_length = (subsweepLengths cfg).sum * cfg.sweep_count ∧
    md.sweep_data_length = (subsweepLengths cfg).sum ∧
    md.subsweep_data_offset = subsweepOffsets (subsweepLengths cfg) ∧
    md.subsweep_data_length = subsweepLengths cfg ∧
    md.high_speed_mode = highSpeedMode cfg := by
  rw [plan] at h
  split at h
  · cases h
    exact ⟨rfl, rfl, rfl, rfl, rfl⟩
  · cases h

/-- Claim C3: in the metadata produced at creation, `sweep_data_length`
equals the sum of all `subsweep_data_length[i]`, and `subsweep_data_offset[i]`
is the cumulative sum of the preceding subsweep lengths within a sweep, with
`subsweep_data_offset[0] = 0`. -/
theorem C3_sweep_length_and_offsets (cfg : acc_config_t)
    (md : acc_processing_metadata_t) (h : plan cfg = some md) :
    md.sweep_data_length = md.subsweep_data_length.sum ∧
    ∀ i, i < md.subsweep_data_offset.length →
      md.subsweep_data_offset[i]? = some ((md.subsweep_data_length.take i).sum) := by
  obtain ⟨-, hs, ho, hl, -⟩ := plan_eq_some cfg md h
  refine ⟨by rw [hs, hl], ?_⟩
  intro i hi
  rw [ho] at hi ⊢
  rw [hl]
  rw [subsweepOffsets, offsetsFrom_length] at hi
  rw [subsweepOffsets, offsetsFrom_getElem? _ _ _ hi, Nat.zero_add]

/-- Witness for C3 at the spec's example configuration. -/
theorem C3_sweep_length_and_offsets_witness :
    plan cfgEx = some mdEx ∧
    (mdEx.sweep_data_length = mdEx.subsweep_data_length.sum ∧
     ∀ i, i < mdEx.subsweep_data_offset.length →
       mdEx.subsweep_data_offset[i]? = some ((mdEx.subsweep_data_length.take i).sum)) :=
  ⟨by decide, C3_sweep_length_and_offsets cfgEx mdEx (by decide)⟩

/-- Claim C4: for every configuration accepted at creation, the produced
metadata satisfies `frame_data_length = sweep_data_length * sweep_count`,
with `sweep_count` taken from the configuration; the model's metadata is a
value, immutable after `plan` computes it. -/
theorem C4_frame_length_product (cfg : acc_config_t)
    (md : acc_processing_metadata_t) (h : plan cfg = some md) :
    md.frame_data_length = md.sweep_data_length * cfg.sweep_count := by
  obtain ⟨hf, hs, -, -, -⟩ := plan_eq_some cfg md h
  rw [hf, hs]

/-- Witness for C4 at the spec's example configuration. -/
theorem C4_frame_length_product_witness :
    plan cfgEx = some mdEx ∧
    mdEx.frame_data_length = mdEx.sweep_data_length * cfgEx.sweep_count :=
  ⟨by decide, C4_frame_length_product cfgEx mdEx (by decide)⟩

/-- Claim C5: `high_speed_mode` is true iff continuous sweep mode is off,
the inter-sweep idle state is READY, there is exactly one subsweep and the
profile is 3, 4 or 5; it is false for every other combination. -/
theorem C5_high_speed_mode_iff (cfg : acc_config_t)
    (md : acc_processing_metadata_t) (h : plan cfg = some md) :
    md.high_speed_mode = true ↔
      cfg.continuous_sweep_mode = false ∧
      cfg.inter_sweep_idle_state = .ready ∧
      cfg.subsweeps.length = 1 ∧
      (cfg.profile = .profile_3 ∨ cfg.profile = .profile_4 ∨
        cfg.profile = .profile_5) := by
  obtain ⟨-, -, -, -, hh⟩ := plan_eq_some cfg md h
  rw [hh]
  rcases cfg with ⟨ss, sc, csm, idle, p⟩
  cases p <;> cases idle <;> cases csm <;>
    simp [highSpeedMode, highSpeedProfile]

/-- Witness for C5 at the spec's example configuration. -/
theorem C5_high_speed_mode_iff_witness :
    plan cfgEx = some mdEx ∧
    (mdEx.high_speed_mode = true ↔
      cfgEx.continuous_sweep_mode = false ∧
      cfgEx.inter_sweep_idle_state = .ready ∧
      cfgEx.subsweeps.length = 1 ∧
      (cfgEx.profile = .profile_3 ∨ cfgEx.profile = .profile_4 ∨
        cfgEx.profile = .profile_5)) :=
  ⟨by decide, C5_high_speed_mode_iff cfgEx mdEx (by decide)⟩

/-- Claim C10: all metadata length and offset fields are stored as 16-bit
unsigned integers, so every stored value is at most 65535; the equation
`frame_data_length = sweep_data_length * sweep_count` is computed modulo
2^16 and can only hold exactly when the true product does not exceed
65535. -/
theorem C10_uint16_storage (cfg : acc_config_t)
    (md : acc_processing_metadata_t) (h : plan cfg = some md) :
    (storedMetadata md).frame_data_length ≤ 65535 ∧
    (storedMetadata md).sweep_data_length ≤ 65535 ∧
    (∀ x ∈ (storedMetadata md).subsweep_data_offset, x ≤ 65535) ∧
    (∀ x ∈ (storedMetadata md).subsweep_data_length, x ≤ 65535) ∧
    (storedMetadata md).frame_data_length =
      (storedMetadata md).sweep_data_length * cfg.sweep_count % 2 ^ 16 ∧
    ((storedMetadata md).frame_data_length =
        md.sweep_data_length * cfg.sweep_count →
      md.sweep_data_length * cfg.sweep_count ≤ 65535) := by
  obtain ⟨hf, hs, -, -, -⟩ := plan_eq_some cfg md h
  have h16 : (2 : ℕ) ^ 16 = 65536 := by norm_num
  refine ⟨?_, ?_, ?_, ?_, ?_, ?_⟩
  · simp only [storedMetadata, h16]; omega
  · simp only [storedMetadata, h16]; omega
  · intro x hx
    simp only [storedMetadata, List.mem_map] at hx
    obtain ⟨y, -, hy⟩ := hx
    omega
  · intro x hx
    simp only [storedMetadata, List.mem_map] at hx
    obtain ⟨y, -, hy⟩ := hx
    omega
  · simp only [storedMetadata, hf, hs]
    rw [Nat.mod_mul_mod]
  · intro hexact
    simp only [storedMetadata, hf, hs] at hexact ⊢
    omega

/-- Witness for C10 at the spec's example configuration. -/
theorem C10_uint16_storage_witness :
    plan cfgEx = some mdEx ∧
    ((storedMetadata mdEx).frame_data_length ≤ 65535 ∧
     (storedMetadata mdEx).sweep_data_length ≤ 65535 ∧
     (∀ x ∈ (storedMetadata mdEx).subsweep_data_offset, x ≤ 65535) ∧
     (∀ x ∈ (storedMetadata mdEx).subsweep_data_length, x ≤ 65535) ∧
     (storedMetadata mdEx).frame_data_length =
       (storedMetadata mdEx).sweep_data_length * cfgEx.sweep_count % 2 ^ 16 ∧
     ((storedMetadata mdEx).frame_data_length =
         mdEx.sweep_data_length * cfgEx.sweep_count →
       mdEx.sweep_data_length * cfgEx.sweep_count ≤ 65535)) :=
  ⟨by decide, C10_uint16_storage cfgEx mdEx (by decide)⟩

/-- Claim C9: destroying a NULL handle is a no-op: it never fails and causes
no observable state change. -/
theorem C9_destroy_null_noop (world : List acc_processing_t) :
    acc_processing_destroy none world = world :=
  rfl

/-- Claim C8: when layout planning fails, creation produces no instance (the
caller receives a NULL handle), writes no metadata, and leaves the allocation
environment unchanged (no partially constructed state, no leak). -/
theorem C8_create_failure_clean (cfg : acc_config_t)
    (world : List acc_processing_t) (h : plan cfg = none) :
    acc_processing_create cfg world = (none, none, world) := by
  unfold acc_processing_create
  rw [h]

/-- Witness for C8 at a configuration with no subsweeps. -/
theorem C8_create_failure_clean_witness :
    plan cfgBad = none ∧ acc_processing_create cfgBad [] = (none, none, []) :=
  ⟨by decide, C8_create_failure_clean cfgBad [] (by decide)⟩

/-- Claim C6: converting 0 points gives exactly 0.0 meters and converting
0.0 meters gives exactly 0 points: neither conversion applies an implicit
zero-point offset. -/
theorem C6_zero_point_no_offset (step_length_m : ℚ) :
    acc_processing_points_to_meter step_length_m 0 = 0 ∧
    acc_processing_meter_to_points step_length_m 0 = 0 := by
  constructor
  · simp [acc_processing_points_to_meter]
  · simp [acc_processing_meter_to_points]

/-- Claim C7: for every integer point count `p`,
`meter_to_points (points_to_meter p)` differs from `p` by at most 1 (in this
exact-arithmetic model it equals `p`); and for every length `x`,
`points_to_meter (meter_to_points x)` is within one step size of `x`. -/
theorem C7_roundtrip (step_length_m : ℚ) (p : ℤ) (x : ℚ)
    (hstep : 0 < step_length_m) :
    |acc_processing_meter_to_points step_length_m
        (acc_processing_points_to_meter step_length_m p) - p| ≤ 1 ∧
    |acc_processing_points_to_meter step_length_m
        (acc_processing_meter_to_points step_length_m x) - x| ≤ step_length_m := by
  have hs0 : step_length_m ≠ 0 := ne_of_gt hstep
  constructor
  · have hround : acc_processing_meter_to_points step_length_m
        (acc_processing_points_to_meter step_length_m p) = p := by
      unfold acc_processing_meter_to_points acc_processing_points_to_meter
      rw [mul_div_cancel_right₀ _ hs0]
      exact round_intCast p
    rw [hround]
    simp
  · unfold acc_processing_points_to_meter acc_processing_meter_to_points
    have hx : x = x / step_length_m * step_length_m := by
      field_simp
    have h1 : |((round (x / step_length_m) : ℤ) : ℚ) - x / step_length_m| ≤ 1 / 2 := by
      rw [abs_sub_comm]
      exact abs_sub_round (x / step_length_m)
    calc |((round (x / step_length_m) : ℤ) : ℚ) * step_length_m - x|
        = |((round (x / step_length_m) : ℤ) : ℚ) - x / step_length_m| *
            step_length_m := by
          nth_rewrite 2 [hx]
          rw [← sub_mul, abs_mul, abs_of_pos hstep]
      _ ≤ 1 / 2 * step_length_m :=
          mul_le_mul_of_nonneg_right h1 (le_of_lt hstep)
      _ ≤ step_length_m := by linarith

/-- Witness for C7 at step size 1/400 m (2.5 mm), p = 3 points, x = 1 m. -/
theorem C7_roundtrip_witness :
    (0 : ℚ) < 1 / 400 ∧
    (|acc_processing_meter_to_points (1 / 400)
        (acc_processing_points_to_meter (1 / 400) 3) - 3| ≤ 1 ∧
     |acc_processing_points_to_meter (1 / 400)
        (acc_processing_meter_to_points (1 / 400) 1) - 1| ≤ 1 / 400) :=
  ⟨by norm_num, C7_roundtrip (1 / 400) 3 1 (by norm_num)⟩

/-- Claim C1: for every profile not covered by the compensation model's
lookup table, the adjustment-factor computation fails explicitly and never
yields a default numeric pair (in particular never factors of 1.0). -/
theorem C1_undefined_profile_fails (m : compensation_model_t)
    (reference_temperature current_temperature : ℤ)
    (profile : acc_config_profile_t)
    (h : m.model_parameter_signal profile = none ∨
      m.model_parameter_deviation profile = none) :
    acc_processing_get_temperature_adjustment_exponents m
        reference_temperature current_temperature profile = none ∧
    ∀ sf df : ℝ, ¬ IsTemperatureAdjustmentFactors m
        reference_temperature current_temperature profile sf df := by
  have hnone : acc_processing_get_temperature_adjustment_exponents m
      reference_temperature current_temperature profile = none := by
    unfold acc_processing_get_temperature_adjustment_exponents
    rcases hs : m.model_parameter_signal profile with _ | s <;>
      rcases hd : m.model_parameter_deviation profile with _ | d <;>
      simp_all
  refine ⟨hnone, ?_⟩
  rintro sf df ⟨es, ed, heq, -, -⟩
  rw [hnone] at heq
  exact Option.noConfusion heq

/-- Witness for C1: a model covering no profile, queried at profile 1. -/
theorem C1_undefined_profile_fails_witness :
    (mEmpty.model_parameter_signal .profile_1 = none ∨
      mEmpty.model_parameter_deviation .profile_1 = none) ∧
    (acc_processing_get_temperature_adjustment_exponents mEmpty 0 0
        .profile_1 = none ∧
     ∀ sf df : ℝ, ¬ IsTemperatureAdjustmentFactors mEmpty 0 0 .profile_1 sf df) :=
  ⟨Or.inl rfl, C1_undefined_profile_fails mEmpty 0 0 .profile_1 (Or.inl rfl)⟩

/-- Claim C2: for every reference temperature, current temperature and
profile with defined model constants, the computation uses
`delta = current - reference` and returns
`signal_adjust_factor = 2 ^ (-delta / model_parameter_signal)` and
`deviation_adjust_factor = 2 ^ (-delta / model_parameter_deviation)`; a zero
delta yields factors (1.0, 1.0), and a delta of -60 with signal model
parameter 60 yields a signal factor of 2. -/
theorem C2_adjustment_factor_formula (m : compensation_model_t)
    (reference_temperature current_temperature : ℤ)
    (profile : acc_config_profile_t) (s d : ℚ)
    (hs : m.model_parameter_signal profile = some s)
    (hd : m.model_parameter_deviation profile = some d) :
    acc_processing_get_temperature_adjustment_exponents m
        reference_temperature current_temperature profile =
      some (-((current_temperature - reference_temperature : ℤ) : ℚ) / s,
            -((current_temperature - reference_temperature : ℤ) : ℚ) / d) ∧
    IsTemperatureAdjustmentFactors m reference_temperature
      current_temperature profile
      ((2 : ℝ) ^
        ((-((current_temperature - reference_temperature : ℤ) : ℚ) / s : ℚ) : ℝ))
      ((2 : ℝ) ^
        ((-((current_temperature - reference_temperature : ℤ) : ℚ) / d : ℚ) : ℝ)) ∧
    (current_temperature = reference_temperature →
      IsTemperatureAdjustmentFactors m reference_temperature
        current_temperature profile 1 1) ∧
    (current_temperature - reference_temperature = -60 → s = 60 →
      ∃ df : ℝ, IsTemperatureAdjustmentFactors m reference_temperature
        current_temperature profile 2 df) := by
  have hexp : acc_processing_get_temperature_adjustment_exponents m
      reference_temperature current_temperature profile =
        some (-((current_temperature - reference_temperature : ℤ) : ℚ) / s,
              -((current_temperature - reference_temperature : ℤ) : ℚ) / d) := by
    unfold acc_processing_get_temperature_adjustment_exponents
    rw [hs, hd]
  refine ⟨hexp, ⟨_, _, hexp, rfl, rfl⟩, ?_, ?_⟩
  · intro hT
    subst hT
    refine ⟨_, _, hexp, ?_, ?_⟩ <;> simp
  · intro hdelta hs60
    refine ⟨_, ⟨_, _, hexp, ?_, rfl⟩⟩
    rw [hdelta, hs60]
    norm_num

/-- Witness for C2: model constants signal 60 and deviation 30, reference
temperature 0 and current temperature -60 (delta = -60), checking both the
formula instance and the doubling law. -/
theorem C2_adjustment_factor_formula_witness :
    mSixty.model_parameter_signal .profile_3 = some 60 ∧
    mSixty.model_parameter_deviation .profile_3 = some 30 ∧
    (((-60 : ℤ) = 0 → IsTemperatureAdjustmentFactors mSixty 0 (-60) .profile_3 1 1) ∧
     ((-60 : ℤ) - 0 = -60 → (60 : ℚ) = 60 →
       ∃ df : ℝ, IsTemperatureAdjustmentFactors mSixty 0 (-60) .profile_3 2 df)) :=
  ⟨rfl, rfl,
    (C2_adjustment_factor_formula mSixty 0 (-60) .profile_3 60 30 rfl rfl).2.2⟩
